import Mathlib

/-!
# Verification of the `on-air` state aggregator and display state machine

Shallow embedding of the core of the `on_air` package
(`src/on_air/__init__.py`, the implementation installed by `setup.py`;
`src/on_air.py` is an earlier duplicated variant of the same file).

The embedded parts are:
* the display-policy constants (`_BLINK_DURATION`, `_BLINK_REPEAT`, the RGB
  triples),
* `ComputedState.from_source_states` (logical OR over all stored per-source
  states),
* `DisplayState.update`, `DisplayState._blink` and `DisplayState._solid`,
  modelled as a pure state-passing function that also returns the trace of
  device commands (`fade_to_rgb` calls and `time.sleep` delays) issued during
  the call.

The per-source mapping (a Python `defaultdict` keyed by source name, which
preserves insertion order and keeps a key's position on overwrite) is
modelled as an insertion-ordered association list.

A second embedding (`namespace Raw`) models the same `update` over untyped
Python payloads (`Dict[str, Any]`), where field access `payload["source"]`,
`state["audio"]`, `state["video"]` can raise `KeyError` and truth tests use
Python truthiness; this is needed to settle the error-handling claims.
-/

set_option autoImplicit false

namespace OnAir

/-- RGB triple, as the Python `Rgb = Tuple[int, int, int]`. -/
abbrev Rgb := Nat × Nat × Nat

/-- `_RGB_VIDEO = (255, 0, 0)`. -/
def RGB_VIDEO : Rgb := (255, 0, 0)

/-- `_RGB_AUDIO = (0, 0, 255)`. -/
def RGB_AUDIO : Rgb := (0, 0, 255)

/-- `_RGB_OFF = (0, 0, 0)`. -/
def RGB_OFF : Rgb := (0, 0, 0)

/-- `_BLINK_DURATION = 0.1` (seconds), time for an interval of blinking. -/
def BLINK_DURATION : ℚ := 1 / 10

/-- `_BLINK_REPEAT = 3`, number of alerting blinks before solid color. -/
def BLINK_REPEAT : Nat := 3

/-- A structurally valid inbound payload: `{source: str, audio: bool, video: bool}`. -/
structure Payload where
  source : String
  audio : Bool
  video : Bool
deriving DecidableEq, Repr

/-- `ComputedState`: the combined on-air state (dataclass with `eq=True`). -/
structure ComputedState where
  audio : Bool
  video : Bool
deriving DecidableEq, Repr

/-- The loop body of `ComputedState.from_source_states`: running `audio`/`video`
accumulators over the remaining source states. -/
def fromSourceStatesAux : Bool → Bool → List Payload → ComputedState
  | a, v, [] => ⟨a, v⟩
  | a, v, s :: rest =>
      fromSourceStatesAux (if s.audio then true else a) (if s.video then true else v) rest

/-- `ComputedState.from_source_states`: OR of the `audio` / `video` flags over
the iterated source states. -/
def ComputedState.from_source_states (l : List Payload) : ComputedState :=
  fromSourceStatesAux false false l

/-- A command issued during an `update` call: a `fade_to_rgb` call on the
blink(1) device (`solid`), or a `time.sleep` delay (`sleep`, in seconds). -/
inductive Cmd where
  | solid (color : Rgb)
  | sleep (duration : ℚ)
deriving DecidableEq, Repr

/-- `DisplayState._solid`: issues one `fade_to_rgb` command if a device is
attached, otherwise nothing (the `time.sleep`s still happen regardless). -/
def solidCmds (device : Bool) (color : Rgb) : List Cmd :=
  if device then [Cmd.solid color] else []

/-- One iteration of the loop in `DisplayState._blink`: target color, sleep,
back to the currently held `_last_color`, sleep. -/
def blinkOnce (device : Bool) (lastColor color : Rgb) : List Cmd :=
  solidCmds device color ++ [Cmd.sleep BLINK_DURATION] ++
    solidCmds device lastColor ++ [Cmd.sleep BLINK_DURATION]

/-- `DisplayState._blink`: `_BLINK_REPEAT` iterations of `blinkOnce`. -/
def blinkCmds (device : Bool) (lastColor color : Rgb) : List Cmd :=
  (List.replicate BLINK_REPEAT (blinkOnce device lastColor color)).flatten

/-- Lookup in the insertion-ordered per-source mapping. -/
def lookupSource : List (String × Payload) → String → Option Payload
  | [], _ => none
  | (k, v) :: rest, s => if k = s then some v else lookupSource rest s

/-- `self._source_states[source_name] = payload`: overwrite in place if the key
exists (Python dicts keep the key's insertion position), else append. -/
def storeSource : List (String × Payload) → String → Payload → List (String × Payload)
  | [], k, v => [(k, v)]
  | (k', v') :: rest, k, v =>
      if k' = k then (k, v) :: rest else (k', v') :: storeSource rest k v

/-- The mutable state of `DisplayState`: the optional device, the per-source
mapping, the cached combined state and the last displayed color. -/
structure DisplayState where
  device : Bool
  source_states : List (String × Payload)
  state : ComputedState
  last_color : Rgb
deriving DecidableEq, Repr

/-- `DisplayState.__init__`: empty mapping, all-false combined state, off. -/
def DisplayState.init (device : Bool) : DisplayState :=
  { device := device
    source_states := []
    state := { audio := false, video := false }
    last_color := RGB_OFF }

/-- The color selected by the `if state.video / elif state.audio / else` chain
inside `DisplayState.update`. -/
def targetColor (st : ComputedState) : Rgb :=
  if st.video then RGB_VIDEO else if st.audio then RGB_AUDIO else RGB_OFF

/-- `DisplayState.update`: returns the new state together with the trace of
commands issued during the call. Mirrors `src/on_air/__init__.py` lines
252-276: dedup on the per-source payload, store, recompute, dedup on the
combined state, then `_blink(color)`, `_solid(color)` and record
`_last_color = color`. -/
def DisplayState.update (ds : DisplayState) (p : Payload) : DisplayState × List Cmd :=
  if lookupSource ds.source_states p.source = some p then
    (ds, [])
  else
    let states := storeSource ds.source_states p.source p
    let st := ComputedState.from_source_states (states.map Prod.snd)
    if st = ds.state then
      ({ ds with source_states := states }, [])
    else
      ({ device := ds.device
         source_states := states
         state := st
         last_color := targetColor st },
       blinkCmds ds.device ds.last_color (targetColor st) ++
         solidCmds ds.device (targetColor st))

namespace Raw

/-!
Embedding of `update` over raw Python payloads (`Payload = Dict[str, Any]`),
restricted to the three schema fields `source`, `audio`, `video`, each of which
may be absent or hold a value of any of the JSON-reachable Python types.
`payload["source"]` / `state["audio"]` / `state["video"]` raise `KeyError` when
the key is absent; `if state["audio"]:` uses Python truthiness.
-/

/-- A Python value as it can appear in a decoded JSON payload field. -/
inductive PyVal where
  | pyBool (b : Bool)
  | pyInt (n : Int)
  | pyStr (s : String)
  | pyNone
deriving DecidableEq, Repr

/-- Python `==` on `PyVal` (note `True == 1` and `False == 0`). -/
def pyEq : PyVal → PyVal → Bool
  | .pyBool b, .pyBool c => b = c
  | .pyBool b, .pyInt n => (if b then (1 : Int) else 0) = n
  | .pyInt n, .pyBool b => n = (if b then (1 : Int) else 0)
  | .pyInt m, .pyInt n => m = n
  | .pyStr s, .pyStr t => s = t
  | .pyNone, .pyNone => true
  | _, _ => false

/-- Python truthiness of a value. -/
def pyTruthy : PyVal → Bool
  | .pyBool b => b
  | .pyInt n => n ≠ 0
  | .pyStr s => s ≠ ""
  | .pyNone => false

/-- A raw inbound payload: each schema field either absent or some Python
value. The empty dict (produced by the `defaultdict` for unseen sources) is
`⟨none, none, none⟩`. -/
structure RawPayload where
  source : Option PyVal
  audio : Option PyVal
  video : Option PyVal
deriving DecidableEq, Repr

/-- Python `==` on two raw payload dicts: the same keys present, with
`pyEq`-equal values. -/
def rawEq (p q : RawPayload) : Bool :=
  optEq p.source q.source && optEq p.audio q.audio && optEq p.video q.video
where
  optEq : Option PyVal → Option PyVal → Bool
    | none, none => true
    | some a, some b => pyEq a b
    | _, _ => false

/-- The error a field access can raise. -/
inductive PyError where
  | keyError (key : String)
deriving DecidableEq, Repr

/-- Lookup in the per-source mapping (dict keys compared with Python `==`). -/
def lookupRaw : List (PyVal × RawPayload) → PyVal → Option RawPayload
  | [], _ => none
  | (k, v) :: rest, s => if pyEq k s then some v else lookupRaw rest s

/-- Dict store: overwrite in place or append. -/
def storeRaw : List (PyVal × RawPayload) → PyVal → RawPayload → List (PyVal × RawPayload)
  | [], k, v => [(k, v)]
  | (k', v') :: rest, k, v =>
      if pyEq k' k then (k, v) :: rest else (k', v') :: storeRaw rest k v

/-- `ComputedState.from_source_states` over raw payloads: `state["audio"]` and
`state["video"]` raise `KeyError` when absent, and their truthiness (not their
type) decides the flags. -/
def fromSourceStatesRaw : Bool → Bool → List RawPayload → Except PyError ComputedState
  | a, v, [] => .ok ⟨a, v⟩
  | a, v, s :: rest =>
      match s.audio with
      | none => .error (.keyError "audio")
      | some av =>
          match s.video with
          | none => .error (.keyError "video")
          | some vv =>
              fromSourceStatesRaw (if pyTruthy av then true else a)
                (if pyTruthy vv then true else v) rest

/-- The mutable state of `DisplayState`, with the raw per-source mapping. -/
structure RawDisplayState where
  device : Bool
  source_states : List (PyVal × RawPayload)
  state : ComputedState
  last_color : Rgb
deriving DecidableEq, Repr

/-- `DisplayState.__init__` over the raw model. -/
def RawDisplayState.init (device : Bool) : RawDisplayState :=
  { device := device
    source_states := []
    state := { audio := false, video := false }
    last_color := RGB_OFF }

/-- `DisplayState.update` over raw payloads. `payload["source"]` raises
`KeyError` when absent; the `defaultdict` lookup yields the empty dict for an
unseen source; the payload is stored BEFORE the combined state is recomputed,
so a `KeyError` from `from_source_states` surfaces after the mutation. -/
def RawDisplayState.update (ds : RawDisplayState) (p : RawPayload) :
    Except PyError (RawDisplayState × List Cmd) :=
  match p.source with
  | none => .error (.keyError "source")
  | some src =>
      let prev := (lookupRaw ds.source_states src).getD ⟨none, none, none⟩
      if rawEq prev p then
        .ok (ds, [])
      else
        let states := storeRaw ds.source_states src p
        match fromSourceStatesRaw false false (states.map Prod.snd) with
        | .error e => .error e
        | .ok st =>
            if st = ds.state then
              .ok ({ ds with source_states := states }, [])
            else
              .ok ({ device := ds.device
                     source_states := states
                     state := st
                     last_color := targetColor st },
                   blinkCmds ds.device ds.last_color (targetColor st) ++
                     solidCmds ds.device (targetColor st))

/-- A raw payload with both hardware fields present (any type of value). -/
def wellFormedRaw (p : RawPayload) : Bool :=
  p.audio.isSome && p.video.isSome

end Raw

/-- The combined state recomputed inside `update` after the payload is stored
(the expression of line 260 of `src/on_air/__init__.py`). -/
def recomputedState (ds : DisplayState) (p : Payload) : ComputedState :=
  ComputedState.from_source_states
    ((storeSource ds.source_states p.source p).map Prod.snd)

/-- The colors of the `fade_to_rgb` commands of a trace, in order. -/
def solidColorsIn (l : List Cmd) : List Rgb :=
  l.filterMap fun cmd =>
    match cmd with
    | .solid c => some c
    | .sleep _ => none

/-! ## Helper lemmas -/

theorem update_eq (ds : DisplayState) (p : Payload) :
    ds.update p =
      if lookupSource ds.source_states p.source = some p then (ds, [])
      else if recomputedState ds p = ds.state then
        ({ ds with source_states := storeSource ds.source_states p.source p }, [])
      else
        ({ device := ds.device
           source_states := storeSource ds.source_states p.source p
           state := recomputedState ds p
           last_color := targetColor (recomputedState ds p) },
         blinkCmds ds.device ds.last_color (targetColor (recomputedState ds p)) ++
           solidCmds ds.device (targetColor (recomputedState ds p))) := rfl

theorem lookupSource_storeSource_self (m : List (String × Payload)) (k : String) (v : Payload) :
    lookupSource (storeSource m k v) k = some v := by
  induction m with
  | nil => simp [storeSource, lookupSource]
  | cons hd tl ih =>
    obtain ⟨k', v'⟩ := hd
    by_cases h : k' = k
    · simp [storeSource, h, lookupSource]
    · simp [storeSource, h, lookupSource, ih]

theorem lookupSource_storeSource_other (m : List (String × Payload)) (k s : String)
    (v : Payload) (h : s ≠ k) :
    lookupSource (storeSource m k v) s = lookupSource m s := by
  induction m with
  | nil =>
    simp [storeSource, lookupSource, Ne.symm h]
  | cons hd tl ih =>
    obtain ⟨k', v'⟩ := hd
    by_cases hk : k' = k
    · subst hk
      simp [storeSource, lookupSource, Ne.symm h]
    · simp [storeSource, hk, lookupSource, ih]

theorem fromSourceStatesAux_eq (l : List Payload) : ∀ a v : Bool,
    fromSourceStatesAux a v l =
      ⟨a || l.any (fun s => s.audio), v || l.any (fun s => s.video)⟩ := by
  induction l with
  | nil => intro a v; simp [fromSourceStatesAux]
  | cons s rest ih =>
    intro a v
    rw [fromSourceStatesAux, ih]
    cases ha : s.audio <;> cases hv : s.video <;>
      simp [List.any_cons, ha, hv]

/-! ## Claims -/

/-- C1: any `update` call whose recomputed `CombinedState` equals the cached
previous `CombinedState` returns before issuing any indicator command, and
leaves the cached combined state as it was — so duplicate or redundant
per-source messages that do not change the combined state produce zero
additional indicator commands, and an identical combined state is never
re-emitted twice in a row. -/
theorem update_silent_when_combined_unchanged (ds : DisplayState) (p : Payload)
    (h : recomputedState ds p = ds.state) :
    (ds.update p).2 = [] ∧ (ds.update p).1.state = ds.state := by
  rw [update_eq]
  by_cases h1 : lookupSource ds.source_states p.source = some p
  · simp [h1]
  · simp [h1, h]

/-- Witness for C1 at a concrete input: a first all-false report leaves the
combined state at its initial all-false value and issues no commands. -/
theorem update_silent_when_combined_unchanged_witness :
    recomputedState (DisplayState.init true) ⟨"A", false, false⟩ =
        (DisplayState.init true).state ∧
      ((DisplayState.init true).update ⟨"A", false, false⟩).2 = [] ∧
      ((DisplayState.init true).update ⟨"A", false, false⟩).1.state =
        (DisplayState.init true).state :=
  ⟨by decide,
   update_silent_when_combined_unchanged (DisplayState.init true) ⟨"A", false, false⟩
     (by decide)⟩

/-- C4: feeding the exact same payload twice in succession produces only one
display transition — the second call returns the state unchanged and issues no
commands. -/
theorem update_idempotent (ds : DisplayState) (p : Payload) :
    DisplayState.update (ds.update p).1 p = ((ds.update p).1, []) := by
  have hstored : lookupSource (ds.update p).1.source_states p.source = some p := by
    rw [update_eq]
    split_ifs with h1 h2
    · simpa using h1
    · simpa using lookupSource_storeSource_self ds.source_states p.source p
    · simpa using lookupSource_storeSource_self ds.source_states p.source p
  rw [update_eq, if_pos hstored]

/-- C5: the combined state is the logical OR across all known source states:
`video` is true iff some stored state has `video = true`, likewise `audio`,
and the empty mapping yields the all-false state. -/
theorem from_source_states_is_or (l : List Payload) :
    ((ComputedState.from_source_states l).audio = true ↔ ∃ p ∈ l, p.audio = true) ∧
    ((ComputedState.from_source_states l).video = true ↔ ∃ p ∈ l, p.video = true) ∧
    ComputedState.from_source_states [] = ⟨false, false⟩ := by
  rw [ComputedState.from_source_states, fromSourceStatesAux_eq]
  simp [List.any_eq_true]
  rfl

/-- C6: strict priority of the color chain in `update`: `video = true` yields
the VIDEO color regardless of `audio`; the AUDIO color is chosen only when
`video = false` and `audio = true`; the OFF/clear color only when both are
false. -/
theorem targetColor_priority : ∀ a : Bool,
    targetColor { audio := a, video := true } = RGB_VIDEO ∧
    targetColor { audio := true, video := false } = RGB_AUDIO ∧
    targetColor { audio := false, video := false } = RGB_OFF := by
  decide

/-- C2: a transition of the combined state to a new solid color (audio or
video active) emits exactly 3 blink pairs — target color then the previously
held solid color, each held for `_BLINK_DURATION = 0.1` — followed by the
target color as the settled solid state, which is recorded as held. -/
theorem update_active_transition_blinks (ds : DisplayState) (p : Payload)
    (hdev : ds.device = true)
    (h1 : lookupSource ds.source_states p.source ≠ some p)
    (h2 : recomputedState ds p ≠ ds.state)
    (h3 : (recomputedState ds p).video = true ∨ (recomputedState ds p).audio = true) :
    (ds.update p).2 =
      [Cmd.solid (targetColor (recomputedState ds p)), Cmd.sleep BLINK_DURATION,
       Cmd.solid ds.last_color, Cmd.sleep BLINK_DURATION,
       Cmd.solid (targetColor (recomputedState ds p)), Cmd.sleep BLINK_DURATION,
       Cmd.solid ds.last_color, Cmd.sleep BLINK_DURATION,
       Cmd.solid (targetColor (recomputedState ds p)), Cmd.sleep BLINK_DURATION,
       Cmd.solid ds.last_color, Cmd.sleep BLINK_DURATION,
       Cmd.solid (targetColor (recomputedState ds p))] ∧
    (targetColor (recomputedState ds p) = RGB_VIDEO ∨
      targetColor (recomputedState ds p) = RGB_AUDIO) ∧
    (ds.update p).1.last_color = targetColor (recomputedState ds p) := by
  rw [update_eq, if_neg h1, if_neg h2]
  refine ⟨?_, ?_, rfl⟩
  · simp [blinkCmds, blinkOnce, solidCmds, BLINK_REPEAT, hdev,
      List.replicate, List.flatten]
  · rcases h3 with h3 | h3
    · exact Or.inl (by simp [targetColor, h3])
    · cases hv : (recomputedState ds p).video
      · exact Or.inr (by simp [targetColor, h3, hv])
      · exact Or.inl (by simp [targetColor, hv])

/-- Witness for C2 at a concrete input: from the initial state, an
audio-active report blinks blue against black three times and settles blue. -/
theorem update_active_transition_blinks_witness :
    ((DisplayState.init true).update ⟨"A", true, false⟩).2 =
      [Cmd.solid (targetColor (recomputedState (DisplayState.init true) ⟨"A", true, false⟩)),
       Cmd.sleep BLINK_DURATION,
       Cmd.solid (DisplayState.init true).last_color, Cmd.sleep BLINK_DURATION,
       Cmd.solid (targetColor (recomputedState (DisplayState.init true) ⟨"A", true, false⟩)),
       Cmd.sleep BLINK_DURATION,
       Cmd.solid (DisplayState.init true).last_color, Cmd.sleep BLINK_DURATION,
       Cmd.solid (targetColor (recomputedState (DisplayState.init true) ⟨"A", true, false⟩)),
       Cmd.sleep BLINK_DURATION,
       Cmd.solid (DisplayState.init true).last_color, Cmd.sleep BLINK_DURATION,
       Cmd.solid (targetColor (recomputedState (DisplayState.init true) ⟨"A", true, false⟩))] ∧
    (targetColor (recomputedState (DisplayState.init true) ⟨"A", true, false⟩) = RGB_VIDEO ∨
      targetColor (recomputedState (DisplayState.init true) ⟨"A", true, false⟩) = RGB_AUDIO) ∧
    ((DisplayState.init true).update ⟨"A", true, false⟩).1.last_color =
      targetColor (recomputedState (DisplayState.init true) ⟨"A", true, false⟩) :=
  update_active_transition_blinks (DisplayState.init true) ⟨"A", true, false⟩
    rfl (by decide) (by decide) (Or.inr (by decide))

/-- C3: a transition of the combined state to the fully-clear state blinks the
clear color (which in this implementation is the OFF triple) against the
previously held solid color, then settles the indicator at OFF, recording OFF
as the held color — clear is not held as a distinct persistent color. -/
theorem update_clear_transition_settles_off (ds : DisplayState) (p : Payload)
    (hdev : ds.device = true)
    (h1 : lookupSource ds.source_states p.source ≠ some p)
    (h2 : recomputedState ds p ≠ ds.state)
    (h3 : recomputedState ds p = { audio := false, video := false }) :
    (ds.update p).2 =
      [Cmd.solid RGB_OFF, Cmd.sleep BLINK_DURATION,
       Cmd.solid ds.last_color, Cmd.sleep BLINK_DURATION,
       Cmd.solid RGB_OFF, Cmd.sleep BLINK_DURATION,
       Cmd.solid ds.last_color, Cmd.sleep BLINK_DURATION,
       Cmd.solid RGB_OFF, Cmd.sleep BLINK_DURATION,
       Cmd.solid ds.last_color, Cmd.sleep BLINK_DURATION,
       Cmd.solid RGB_OFF] ∧
    (ds.update p).1.last_color = RGB_OFF := by
  rw [update_eq, if_neg h1, if_neg h2, h3]
  refine ⟨?_, rfl⟩
  simp [blinkCmds, blinkOnce, solidCmds, BLINK_REPEAT, hdev, targetColor,
    List.replicate, List.flatten]

/-- Witness for C3 at a concrete input: after source A reports audio, its
all-false report blinks OFF against the held blue and settles at OFF. -/
theorem update_clear_transition_settles_off_witness :
    ((((DisplayState.init true).update ⟨"A", true, false⟩).1.update ⟨"A", false, false⟩).2 =
      [Cmd.solid RGB_OFF, Cmd.sleep BLINK_DURATION,
       Cmd.solid (((DisplayState.init true).update ⟨"A", true, false⟩).1).last_color,
       Cmd.sleep BLINK_DURATION,
       Cmd.solid RGB_OFF, Cmd.sleep BLINK_DURATION,
       Cmd.solid (((DisplayState.init true).update ⟨"A", true, false⟩).1).last_color,
       Cmd.sleep BLINK_DURATION,
       Cmd.solid RGB_OFF, Cmd.sleep BLINK_DURATION,
       Cmd.solid (((DisplayState.init true).update ⟨"A", true, false⟩).1).last_color,
       Cmd.sleep BLINK_DURATION,
       Cmd.solid RGB_OFF]) ∧
    (((DisplayState.init true).update ⟨"A", true, false⟩).1.update
        ⟨"A", false, false⟩).1.last_color = RGB_OFF :=
  update_clear_transition_settles_off
    ((DisplayState.init true).update ⟨"A", true, false⟩).1 ⟨"A", false, false⟩
    (by decide) (by decide) (by decide) (by decide)

/-- C7 counterexample: `update` has no "target color equals held color" guard.
After source A reports audio+video (held color VIDEO), A's report
audio=false/video=true changes the combined state, the target color equals the
held color — and yet commands are emitted. -/
theorem update_same_color_still_emits :
    targetColor (recomputedState (((DisplayState.init true).update
        ⟨"A", true, true⟩).1) ⟨"A", false, true⟩) =
      (((DisplayState.init true).update ⟨"A", true, true⟩).1).last_color ∧
    (((DisplayState.init true).update ⟨"A", true, true⟩).1.update
        ⟨"A", false, true⟩).1.state ≠
      (((DisplayState.init true).update ⟨"A", true, true⟩).1).state ∧
    (((DisplayState.init true).update ⟨"A", true, true⟩).1.update
        ⟨"A", false, true⟩).2 ≠ [] := by
  decide

/-- C7 amended: when the combined state changes but the target color equals
the currently-held solid color, `update` still runs the full blink-and-settle
sequence, but every `fade_to_rgb` command it issues carries the held color, so
the displayed color never changes and the held color is unchanged. -/
theorem update_same_color_transition_invisible (ds : DisplayState) (p : Payload)
    (hdev : ds.device = true)
    (h1 : lookupSource ds.source_states p.source ≠ some p)
    (h2 : recomputedState ds p ≠ ds.state)
    (h3 : targetColor (recomputedState ds p) = ds.last_color) :
    solidColorsIn (ds.update p).2 = List.replicate 7 ds.last_color ∧
    (ds.update p).1.last_color = ds.last_color := by
  rw [update_eq, if_neg h1, if_neg h2, h3]
  refine ⟨?_, rfl⟩
  simp [blinkCmds, blinkOnce, solidCmds, BLINK_REPEAT, hdev, solidColorsIn,
    List.replicate, List.flatten]

/-- Witness for the amended C7 at the concrete counterexample input. -/
theorem update_same_color_transition_invisible_witness :
    solidColorsIn (((DisplayState.init true).update ⟨"A", true, true⟩).1.update
        ⟨"A", false, true⟩).2 =
      List.replicate 7 (((DisplayState.init true).update ⟨"A", true, true⟩).1).last_color ∧
    (((DisplayState.init true).update ⟨"A", true, true⟩).1.update
        ⟨"A", false, true⟩).1.last_color =
      (((DisplayState.init true).update ⟨"A", true, true⟩).1).last_color :=
  update_same_color_transition_invisible
    ((DisplayState.init true).update ⟨"A", true, true⟩).1 ⟨"A", false, true⟩
    (by decide) (by decide) (by decide) (by decide)

/-- C8: `last_color` starts at OFF in the initial state and always equals the
color derived from the cached combined state (VIDEO if video, else AUDIO if
audio, else OFF); this invariant is preserved by every `update` call, and a
call that leaves the combined state unchanged leaves `last_color` unchanged. -/
theorem last_color_reflects_state (d : Bool) (ds : DisplayState) (p : Payload)
    (hinv : ds.last_color = targetColor ds.state) :
    (DisplayState.init d).last_color = RGB_OFF ∧
    (DisplayState.init d).last_color = targetColor (DisplayState.init d).state ∧
    (ds.update p).1.last_color = targetColor ((ds.update p).1.state) ∧
    ((ds.update p).1.state = ds.state → (ds.update p).1.last_color = ds.last_color) := by
  refine ⟨rfl, rfl, ?_, ?_⟩
  · rw [update_eq]
    split_ifs with h1 h2
    · simpa using hinv
    · simpa [h2] using hinv
    · rfl
  · rw [update_eq]
    split_ifs with h1 h2
    · intro _; rfl
    · intro _; rfl
    · intro hst
      exact absurd (by simpa using hst) h2

/-- Witness for C8 at a concrete input: after an audio-active report from the
initial state, the held color is the one derived from the cached state. -/
theorem last_color_reflects_state_witness :
    (DisplayState.init true).last_color = RGB_OFF ∧
    (DisplayState.init true).last_color = targetColor (DisplayState.init true).state ∧
    ((DisplayState.init true).update ⟨"A", true, false⟩).1.last_color =
      targetColor (((DisplayState.init true).update ⟨"A", true, false⟩).1.state) ∧
    (((DisplayState.init true).update ⟨"A", true, false⟩).1.state =
        (DisplayState.init true).state →
      ((DisplayState.init true).update ⟨"A", true, false⟩).1.last_color =
        (DisplayState.init true).last_color) :=
  last_color_reflects_state true (DisplayState.init true) ⟨"A", true, false⟩ (by decide)

/-- C10: `update` only inserts or overwrites the entry keyed by the payload's
own source: the stored state of every other source is unchanged, no entry is
ever removed, and afterwards the payload's source maps to the payload. -/
theorem update_frame_other_sources (ds : DisplayState) (p : Payload) (s : String)
    (h : s ≠ p.source) :
    lookupSource (ds.update p).1.source_states s = lookupSource ds.source_states s ∧
    lookupSource (ds.update p).1.source_states p.source = some p := by
  rw [update_eq]
  split_ifs with h1 h2
  · exact ⟨rfl, h1⟩
  · exact ⟨by simpa using lookupSource_storeSource_other ds.source_states p.source s p h,
      by simpa using lookupSource_storeSource_self ds.source_states p.source p⟩
  · exact ⟨by simpa using lookupSource_storeSource_other ds.source_states p.source s p h,
      by simpa using lookupSource_storeSource_self ds.source_states p.source p⟩

/-- Witness for C10 at a concrete input: an update from source A leaves the
stored state of source B unchanged and stores A's payload under A. -/
theorem update_frame_other_sources_witness :
    lookupSource (((DisplayState.init true).update ⟨"A", true, false⟩).1.source_states) "B" =
      lookupSource (DisplayState.init true).source_states "B" ∧
    lookupSource (((DisplayState.init true).update ⟨"A", true, false⟩).1.source_states) "A" =
      some ⟨"A", true, false⟩ :=
  update_frame_other_sources (DisplayState.init true) ⟨"A", true, false⟩ "B" (by decide)

/-! ## Raw-model helper lemmas -/

theorem fromSourceStatesRaw_ok_of_wf (l : List Raw.RawPayload)
    (hl : ∀ q ∈ l, Raw.wellFormedRaw q = true) :
    ∀ a v : Bool, (Raw.fromSourceStatesRaw a v l).isOk = true := by
  induction l with
  | nil => intro a v; rfl
  | cons s rest ih =>
    intro a v
    have hs : Raw.wellFormedRaw s = true := hl s (List.mem_cons_self s rest)
    have hrest : ∀ q ∈ rest, Raw.wellFormedRaw q = true :=
      fun q hq => hl q (List.mem_cons_of_mem s hq)
    rw [Raw.wellFormedRaw, Bool.and_eq_true, Option.isSome_iff_exists,
      Option.isSome_iff_exists] at hs
    obtain ⟨⟨av, hav⟩, ⟨vv, hvv⟩⟩ := hs
    rw [Raw.fromSourceStatesRaw, hav, hvv]
    exact ih hrest _ _

theorem fromSourceStatesRaw_append_of_wf (l : List Raw.RawPayload)
    (hl : ∀ q ∈ l, Raw.wellFormedRaw q = true) (rest : List Raw.RawPayload) :
    ∀ a v : Bool, ∃ a' v' : Bool,
      Raw.fromSourceStatesRaw a v (l ++ rest) = Raw.fromSourceStatesRaw a' v' rest := by
  induction l with
  | nil => intro a v; exact ⟨a, v, rfl⟩
  | cons s tl ih =>
    intro a v
    have hs : Raw.wellFormedRaw s = true := hl s (List.mem_cons_self s tl)
    have htl : ∀ q ∈ tl, Raw.wellFormedRaw q = true :=
      fun q hq => hl q (List.mem_cons_of_mem s hq)
    rw [Raw.wellFormedRaw, Bool.and_eq_true, Option.isSome_iff_exists,
      Option.isSome_iff_exists] at hs
    obtain ⟨⟨av, hav⟩, ⟨vv, hvv⟩⟩ := hs
    rw [List.cons_append, Raw.fromSourceStatesRaw, hav, hvv]
    exact ih htl _ _

theorem storeRaw_of_lookupRaw_none (m : List (Raw.PyVal × Raw.RawPayload))
    (k : Raw.PyVal) (v : Raw.RawPayload) (h : Raw.lookupRaw m k = none) :
    Raw.storeRaw m k v = m ++ [(k, v)] := by
  induction m with
  | nil => rfl
  | cons hd tl ih =>
    obtain ⟨k', v'⟩ := hd
    rw [Raw.lookupRaw] at h
    by_cases hk : Raw.pyEq k' k = true
    · simp [hk] at h
    · rw [Raw.storeRaw, if_neg hk, List.cons_append]
      rw [if_neg hk] at h
      rw [ih h]

theorem mem_storeRaw_values (m : List (Raw.PyVal × Raw.RawPayload))
    (k : Raw.PyVal) (v : Raw.RawPayload) (q : Raw.RawPayload)
    (hq : q ∈ (Raw.storeRaw m k v).map Prod.snd) :
    q ∈ m.map Prod.snd ∨ q = v := by
  induction m with
  | nil =>
    simp [Raw.storeRaw] at hq
    exact Or.inr hq
  | cons hd tl ih =>
    obtain ⟨k', v'⟩ := hd
    rw [Raw.storeRaw] at hq
    by_cases hk : Raw.pyEq k' k = true
    · rw [if_pos hk] at hq
      simp at hq
      rcases hq with hq | hq
      · exact Or.inr hq
      · exact Or.inl (by simp [hq])
    · rw [if_neg hk] at hq
      simp at hq
      rcases hq with hq | hq
      · exact Or.inl (by simp [hq])
      · rcases ih (by simpa using hq) with h | h
        · exact Or.inl (by simp; exact Or.inr (by simpa using h))
        · exact Or.inr h

/-- C9 counterexample: a payload whose `audio` field holds a string instead of
a boolean is NOT rejected: `update` succeeds, silently interpreting the value
by Python truthiness (the truthy string turns the combined audio flag on). -/
theorem raw_update_wrong_type_accepted :
    (Raw.RawDisplayState.init true).update
        ⟨some (.pyStr "A"), some (.pyStr "on"), some (.pyBool false)⟩ =
      .ok ({ device := true
             source_states :=
               [(.pyStr "A", ⟨some (.pyStr "A"), some (.pyStr "on"), some (.pyBool false)⟩)]
             state := { audio := true, video := false }
             last_color := RGB_AUDIO },
           [Cmd.solid RGB_AUDIO, Cmd.sleep BLINK_DURATION,
            Cmd.solid RGB_OFF, Cmd.sleep BLINK_DURATION,
            Cmd.solid RGB_AUDIO, Cmd.sleep BLINK_DURATION,
            Cmd.solid RGB_OFF, Cmd.sleep BLINK_DURATION,
            Cmd.solid RGB_AUDIO, Cmd.sleep BLINK_DURATION,
            Cmd.solid RGB_OFF, Cmd.sleep BLINK_DURATION,
            Cmd.solid RGB_AUDIO]) := by
  rfl

/-- C9 amended: a payload missing `source` raises `KeyError("source")` before
any state change; a payload for a fresh source missing `audio` (resp. with
`audio` present but missing `video`) raises `KeyError("audio")` (resp.
`KeyError("video")`) — surfaced to the caller, though only after the payload
has been stored — provided all previously stored payloads carry both hardware
fields; and a payload with all three fields present never fails. Wrong-TYPED
`audio`/`video` values are NOT rejected: any Python value is accepted and read
through truthiness. -/
theorem raw_update_validation (ds : Raw.RawDisplayState) (src av vv : Raw.PyVal)
    (pa pv pv2 : Option Raw.PyVal)
    (hclean : ∀ q ∈ ds.source_states.map Prod.snd, Raw.wellFormedRaw q = true)
    (hfresh : Raw.lookupRaw ds.source_states src = none) :
    ds.update ⟨none, pa, pv⟩ = .error (.keyError "source") ∧
    ds.update ⟨some src, none, pv2⟩ = .error (.keyError "audio") ∧
    ds.update ⟨some src, some av, none⟩ = .error (.keyError "video") ∧
    (ds.update ⟨some src, some av, some vv⟩).isOk = true := by
  have hstore : ∀ q : Raw.RawPayload,
      Raw.storeRaw ds.source_states src q = ds.source_states ++ [(src, q)] :=
    fun q => storeRaw_of_lookupRaw_none ds.source_states src q hfresh
  refine ⟨rfl, ?_, ?_, ?_⟩
  · rw [Raw.RawDisplayState.update]
    simp only [hfresh, Option.getD_none]
    rw [if_neg (by simp [Raw.rawEq, Raw.rawEq.optEq])]
    rw [hstore, List.map_append]
    obtain ⟨a', v', heq⟩ :=
      fromSourceStatesRaw_append_of_wf (ds.source_states.map Prod.snd) hclean
        [⟨some src, none, pv2⟩] false false
    simp only [List.map_cons, List.map_nil]
    rw [heq, Raw.fromSourceStatesRaw]
  · rw [Raw.RawDisplayState.update]
    simp only [hfresh, Option.getD_none]
    rw [if_neg (by simp [Raw.rawEq, Raw.rawEq.optEq])]
    rw [hstore, List.map_append]
    obtain ⟨a', v', heq⟩ :=
      fromSourceStatesRaw_append_of_wf (ds.source_states.map Prod.snd) hclean
        [⟨some src, some av, none⟩] false false
    simp only [List.map_cons, List.map_nil]
    rw [heq, Raw.fromSourceStatesRaw]
  · rw [Raw.RawDisplayState.update]
    simp only [hfresh, Option.getD_none]
    rw [if_neg (by simp [Raw.rawEq, Raw.rawEq.optEq])]
    rw [hstore, List.map_append]
    have hwf : ∀ q ∈ ds.source_states.map Prod.snd ++
        [(⟨some src, some av, some vv⟩ : Raw.RawPayload)], Raw.wellFormedRaw q = true := by
      intro q hq
      rcases List.mem_append.mp hq with hq | hq
      · exact hclean q hq
      · simp at hq
        subst hq
        rfl
    have hok := fromSourceStatesRaw_ok_of_wf _ hwf false false
    cases hres : Raw.fromSourceStatesRaw false false
        (ds.source_states.map Prod.snd ++ [⟨some src, some av, some vv⟩]) with
    | error e => rw [hres] at hok; exact absurd hok (by simp [Except.isOk, Except.toBool])
    | ok st =>
      simp only [List.map_cons, List.map_nil] at hres ⊢
      rw [hres]
      by_cases hst : st = ds.state <;> simp [hst, Except.isOk, Except.toBool]

/-- Witness for the amended C9 at concrete inputs, from the initial (empty)
display state. -/
theorem raw_update_validation_witness :
    (Raw.RawDisplayState.init true).update
        ⟨none, some (.pyBool true), none⟩ = .error (.keyError "source") ∧
    (Raw.RawDisplayState.init true).update
        ⟨some (.pyStr "A"), none, some (.pyInt 3)⟩ = .error (.keyError "audio") ∧
    (Raw.RawDisplayState.init true).update
        ⟨some (.pyStr "A"), some (.pyBool true), none⟩ = .error (.keyError "video") ∧
    ((Raw.RawDisplayState.init true).update
        ⟨some (.pyStr "A"), some (.pyBool true), some (.pyBool false)⟩).isOk = true :=
  raw_update_validation (Raw.RawDisplayState.init true) (.pyStr "A") (.pyBool true)
    (.pyBool false) (some (.pyBool true)) none (some (.pyInt 3)) (by decide) rfl

end OnAir
